import Mathlib

/-
Shallow embedding of src/fastapi/applications.py: the FastAPI application
object, its construction-time setup, the middleware list handling, the
exception handler registry, event hook registration, route copying and the
OpenAPI schema cache.  External collaborators (starlette routing internals,
the HTML renderers and the schema generation function) are modelled at
their interface boundary only.
-/

/-- Built-in and user exception handler functions, identified by tag.
Modelled from the spec: http_exception_handler and
request_validation_exception_handler live in fastapi.exception_handlers,
which is outside the given source; only their identity matters here. -/
inductive Handler where
  | httpExceptionHandler
  | requestValidationExceptionHandler
  | userHandler (id : Nat)
deriving DecidableEq

/-- A key of the exception handler registry: an exception type (by name) or
an integer status code. -/
inductive ExcKey where
  | excType (name : String)
  | statusCode (code : Int)
deriving DecidableEq

/-- The registry key for starlette HTTPException. -/
def excKeyHttp : ExcKey := ExcKey.excType "StarletteHTTPException"

/-- The registry key for RequestValidationError. -/
def excKeyValidation : ExcKey := ExcKey.excType "RequestValidationError"

/-- The endpoint stored in a route entry, identified by tag: the lambdas
that setup registers, or a user endpoint. -/
inductive RouteHandler where
  | openapiHandler
  | swaggerUiHandler
  | oauth2RedirectHandler
  | redocHandler
  | userEndpoint (id : Nat)
deriving DecidableEq

/-- A starlette BaseRoute: a plain Route (path, endpoint,
include_in_schema; methods and name are not tracked because no modelled
behavior reads them) or a Mount of a sub-application, identified by id. -/
inductive BaseRoute where
  | route (path : String) (endpoint : RouteHandler) (include_in_schema : Bool)
  | mount (path : String) (app : Nat) (name : Option String)
deriving DecidableEq

/-- A starlette Middleware entry Middleware(cls, **options); only the
middleware identity is tracked, the options do not influence list order. -/
structure MiddlewareEntry where
  cls : String
deriving DecidableEq

/-- The error-boundary middleware that setup installs. -/
def serverErrorMiddleware : MiddlewareEntry := { cls := "ServerErrorMiddleware" }

/-- The slice of routing.APIRouter state that applications.py touches: the
route list, the startup and shutdown hook lists (hooks identified by id)
and the webhooks sub-collection (identified by id). -/
structure APIRouter where
  routes : List BaseRoute
  on_startup : List Nat
  on_shutdown : List Nat
  webhooks : List Nat
deriving DecidableEq

/-- Modelled from the spec: get_openapi (fastapi.openapi.utils) is outside
the given source; per the spec it is a pure, deterministic function of the
application metadata, the route list, the tags, the servers and the
webhooks, and its result always carries the schema-version field, so as a
Python dict it is never empty, hence never falsy.  It is modelled as the
record of its inputs. -/
structure OpenAPIDoc where
  title : String
  version : String
  description : String
  routes : List BaseRoute
  tags : Option (List String)
  servers : List String
  terms_of_service : Option String
  contact : Option String
  license_info : Option String
  webhooks : List Nat
deriving DecidableEq

/-- The errors applications.py raises: the two assertion failures and the
RuntimeError of openapi, as an error type. -/
inductive AppError where
  | openapiUrlMustEndWithJson
  | openapiUrlNotSet
  | invalidEventType
deriving DecidableEq

/-- Python dict lookup on an insertion-ordered association list. -/
def dictGet : List (ExcKey × Handler) → ExcKey → Option Handler
  | [], _ => none
  | p :: rest, k => if p.1 = k then some p.2 else dictGet rest k

/-- Python dict key-containment test. -/
def dictContains : List (ExcKey × Handler) → ExcKey → Bool
  | [], _ => false
  | p :: rest, k => if p.1 = k then true else dictContains rest k

/-- Replace the value at a key in place, keeping insertion order. -/
def dictUpdate : List (ExcKey × Handler) → ExcKey → Handler → List (ExcKey × Handler)
  | [], _, _ => []
  | p :: rest, k, v => (if p.1 = k then (k, v) else p) :: dictUpdate rest k v

/-- Python dict assignment d[k] = v: replace in place when the key is
present, otherwise append, preserving insertion order. -/
def dictInsert (d : List (ExcKey × Handler)) (k : ExcKey) (v : Handler) :
    List (ExcKey × Handler) :=
  if dictContains d k then dictUpdate d k v else d ++ [(k, v)]

/-- Python str.endswith, on the character list. -/
def strEndsWith (s suf : String) : Bool :=
  decide (s.toList.drop (s.toList.length - suf.toList.length) = suf.toList)

/-- Python truthiness of an optional string: None and the empty string are
falsy, every other string is truthy. -/
def strTruthy : Option String → Bool
  | none => false
  | some s => if s = "" then false else true

/-- Extract the string of a truthy optional string. -/
def optStr : Option String → String
  | none => ""
  | some s => s

/-- The FastAPI application state: the fields of FastAPI.__init__ that the
modelled behavior reads or writes.  The openapi_schema field models the
private cache attribute of the schema document. -/
structure FastAPI where
  debug : Bool
  router : APIRouter
  title : String
  description : String
  version : String
  terms_of_service : Option String
  contact : Option String
  license_info : Option String
  openapi_url : Option String
  openapi_tags : Option (List String)
  servers : List String
  middleware : List MiddlewareEntry
  exception_handlers : List (ExcKey × Handler)
  user_middleware : List MiddlewareEntry
  openapi_schema : Option OpenAPIDoc
  docs_url : Option String
  redoc_url : Option String
  swagger_ui_oauth2_redirect_url : Option String
  routes : List BaseRoute
deriving DecidableEq

/-- self.user_middleware.insert(0, Middleware(middleware_class, **kwargs)). -/
def FastAPI.add_middleware (a : FastAPI) (m : MiddlewareEntry) : FastAPI :=
  { a with user_middleware := m :: a.user_middleware }

/-- self.exception_handlers[exc_class_or_status_code] = handler. -/
def FastAPI.add_exception_handler (a : FastAPI) (k : ExcKey) (h : Handler) : FastAPI :=
  { a with exception_handlers := dictInsert a.exception_handlers k h }

/-- Delegates to the router, which appends a Route entry. -/
def FastAPI.add_route (a : FastAPI) (path : String) (endpoint : RouteHandler)
    (include_in_schema : Bool) : FastAPI :=
  { a with router := { a.router with
      routes := a.router.routes ++ [BaseRoute.route path endpoint include_in_schema] } }

/-- assert event_type in ("startup", "shutdown"), then append the hook to
the matching router list. -/
def FastAPI.add_event_handler (a : FastAPI) (event_type : String) (func : Nat) :
    Except AppError FastAPI :=
  if event_type = "startup" ∨ event_type = "shutdown" then
    if event_type = "startup" then
      .ok { a with router := { a.router with on_startup := a.router.on_startup ++ [func] } }
    else
      .ok { a with router := { a.router with on_shutdown := a.router.on_shutdown ++ [func] } }
  else
    .error AppError.invalidEventType

/-- self.routes.append(Mount(path, app=app, name=name)); the router is not
touched. -/
def FastAPI.mount (a : FastAPI) (path : String) (app : Nat) (name : Option String) : FastAPI :=
  { a with routes := a.routes ++ [BaseRoute.mount path app name] }

/-- The call get_openapi(title=..., version=..., ..., routes=self.routes,
webhooks=self.router.webhooks) made by FastAPI.openapi. -/
def get_openapi (a : FastAPI) : OpenAPIDoc :=
  { title := a.title, version := a.version, description := a.description,
    routes := a.routes, tags := a.openapi_tags, servers := a.servers,
    terms_of_service := a.terms_of_service, contact := a.contact,
    license_info := a.license_info, webhooks := a.router.webhooks }

/-- FastAPI.openapi: raise when the schema URL is falsy, return the cached
document when one exists (a compiled document is a nonempty dict, hence
truthy), otherwise compile, store and return. -/
def FastAPI.openapi (a : FastAPI) : Except AppError (OpenAPIDoc × FastAPI) :=
  if strTruthy a.openapi_url = false then
    .error AppError.openapiUrlNotSet
  else
    match a.openapi_schema with
    | some d => .ok (d, a)
    | none =>
      let d := get_openapi a
      .ok (d, { a with openapi_schema := some (get_openapi a) })

/-- One step of the middleware loops: insert at the front. -/
def addMiddlewareList (mws : List MiddlewareEntry) (m : MiddlewareEntry) :
    List MiddlewareEntry :=
  m :: mws

/-- The loop for middleware in reversed(self.user_middleware):
self.add_middleware(...) of setup.  It reverse-iterates over the very list
the body prepends to: the iterator index starts at the initial length minus
one and counts down once per step, while every step shifts the whole list
right by one, so the loop runs initial-length many steps and re-reads
shifted entries.  The second argument is the iterator index plus one. -/
def reversedAddAll : List MiddlewareEntry → Nat → List MiddlewareEntry
  | cur, 0 => cur
  | cur, i + 1 =>
    match cur[i]? with
    | some x => reversedAddAll (x :: cur) i
    | none => cur

/-- The docs routes that setup registers: the Swagger UI page when docs_url
is truthy, plus the OAuth2 redirect helper when that URL is also truthy. -/
def docsRoutesOf (d o2 : Option String) : List BaseRoute :=
  if strTruthy d then
    BaseRoute.route (optStr d) RouteHandler.swaggerUiHandler false ::
      (if strTruthy o2 then
        [BaseRoute.route (optStr o2) RouteHandler.oauth2RedirectHandler false]
      else [])
  else []

/-- The ReDoc route that setup registers when redoc_url is truthy. -/
def redocRoutesOf (rd : Option String) : List BaseRoute :=
  if strTruthy rd then [BaseRoute.route (optStr rd) RouteHandler.redocHandler false]
  else []

/-- The docs section of setup: conditional add_route calls, net effect an
append to the router routes. -/
def FastAPI.setupDocs (a : FastAPI) : FastAPI :=
  { a with router := { a.router with
      routes := a.router.routes ++ docsRoutesOf a.docs_url a.swagger_ui_oauth2_redirect_url } }

/-- The ReDoc section of setup. -/
def FastAPI.setupRedoc (a : FastAPI) : FastAPI :=
  { a with router := { a.router with
      routes := a.router.routes ++ redocRoutesOf a.redoc_url } }

/-- The middleware section of setup: add the error boundary, then each
constructor-supplied middleware in declaration order, then the
reverse-iteration loop over the (mutating) user middleware list. -/
def FastAPI.setupMiddleware (a : FastAPI) : FastAPI :=
  let mw1 := addMiddlewareList a.user_middleware serverErrorMiddleware
  let mw2 := a.middleware.foldl addMiddlewareList mw1
  { a with user_middleware := reversedAddAll mw2 mw2.length }

/-- The start of setup: initialize the application route list when falsy,
then register the two built-in exception handlers. -/
def FastAPI.setupPre (a : FastAPI) : FastAPI :=
  let a1 := { a with routes := if a.routes.isEmpty then [] else a.routes }
  (a1.add_exception_handler excKeyHttp Handler.httpExceptionHandler).add_exception_handler
    excKeyValidation Handler.requestValidationExceptionHandler

/-- The tail of setup after the OpenAPI section: docs routes, redoc routes,
copying the router routes into the application route list, then the
middleware section. -/
def FastAPI.postOpenapiSetup (a : FastAPI) : FastAPI :=
  let a1 := a.setupDocs
  let a2 := a1.setupRedoc
  let a3 := { a2 with routes := a2.routes ++ a2.router.routes }
  a3.setupMiddleware

/-- FastAPI.setup.  The OpenAPI section runs only for a truthy schema URL;
a truthy URL not ending in .json fails the assert (the partially mutated
object is never returned, so the failed branches discard it). -/
def FastAPI.setup (a : FastAPI) : Except AppError FastAPI :=
  match a.openapi_url with
  | none => .ok a.setupPre.postOpenapiSetup
  | some u =>
    if u = "" then .ok a.setupPre.postOpenapiSetup
    else if strEndsWith u ".json" then
      .ok ((a.setupPre.add_route u RouteHandler.openapiHandler false).postOpenapiSetup)
    else .error AppError.openapiUrlMustEndWithJson

/-- The constructor arguments of FastAPI.__init__ that the modelled
behavior reads. -/
structure Args where
  debug : Bool
  routes : List BaseRoute
  title : String
  description : String
  version : String
  openapi_url : Option String
  openapi_tags : Option (List String)
  servers : List String
  docs_url : Option String
  redoc_url : Option String
  swagger_ui_oauth2_redirect_url : Option String
  middleware : List MiddlewareEntry
  exception_handlers : List (ExcKey × Handler)
  on_startup : List Nat
  on_shutdown : List Nat
  terms_of_service : Option String
  contact : Option String
  license_info : Option String
  webhooks : List Nat
deriving DecidableEq

/-- The Python default arguments of FastAPI.__init__. -/
def Args.default : Args :=
  { debug := false, routes := [], title := "FastAPI", description := "",
    version := "0.1.0", openapi_url := some "/openapi.json",
    openapi_tags := none, servers := [], docs_url := some "/docs",
    redoc_url := some "/redoc",
    swagger_ui_oauth2_redirect_url := some "/docs/oauth2-redirect",
    middleware := [], exception_handlers := [], on_startup := [],
    on_shutdown := [], terms_of_service := none, contact := none,
    license_info := none, webhooks := [] }

/-- The field assignments of FastAPI.__init__ before setup runs: the router
is built from the routes and hook arguments, the exception handler mapping
is copied from the argument, the user middleware list starts empty and the
schema cache starts unset. -/
def initialState (args : Args) : FastAPI :=
  { debug := args.debug,
    router := { routes := args.routes, on_startup := args.on_startup,
                on_shutdown := args.on_shutdown, webhooks := args.webhooks },
    title := args.title, description := args.description,
    version := args.version, terms_of_service := args.terms_of_service,
    contact := args.contact, license_info := args.license_info,
    openapi_url := args.openapi_url, openapi_tags := args.openapi_tags,
    servers := args.servers, middleware := args.middleware,
    exception_handlers := args.exception_handlers, user_middleware := [],
    openapi_schema := none, docs_url := args.docs_url,
    redoc_url := args.redoc_url,
    swagger_ui_oauth2_redirect_url := args.swagger_ui_oauth2_redirect_url,
    routes := [] }

/-- FastAPI.__init__: store the configuration, then run setup inside the
constructor, so setup assertion failures fire before the object is
returned. -/
def FastAPI.init (args : Args) : Except AppError FastAPI :=
  (initialState args).setup

/-- Whether an Except value is a success. -/
def exceptOk {ε α : Type} : Except ε α → Bool
  | .ok _ => true
  | .error _ => false

/-- The router route list of a successfully constructed application. -/
def routesOfInit (args : Args) : List BaseRoute :=
  match FastAPI.init args with
  | .ok a => a.router.routes
  | .error _ => []

/-- Whether a route entry is the schema-serving route. -/
def isOpenapiRoute : BaseRoute → Bool
  | BaseRoute.route _ RouteHandler.openapiHandler _ => true
  | _ => false

/-- Whether a route entry is the Swagger UI docs route. -/
def isSwaggerRoute : BaseRoute → Bool
  | BaseRoute.route _ RouteHandler.swaggerUiHandler _ => true
  | _ => false

/-- Whether a route entry is the ReDoc docs route. -/
def isRedocRoute : BaseRoute → Bool
  | BaseRoute.route _ RouteHandler.redocHandler _ => true
  | _ => false

/-- The schema route that a successful setup registers, as a function of
the configured schema URL. -/
def openapiRoutesOf (o : Option String) : List BaseRoute :=
  match o with
  | none => []
  | some u => if u = "" then [] else [BaseRoute.route u RouteHandler.openapiHandler false]

/-- A concretely constructed application with all-default arguments, used
by the witness statements. -/
def defaultApp : FastAPI :=
  (FastAPI.init Args.default).toOption.getD (initialState Args.default)

/-- Lookup after an in-place update of a present key. -/
theorem dictGet_dictUpdate (d : List (ExcKey × Handler)) (k : ExcKey) (v : Handler)
    (h : dictContains d k = true) : dictGet (dictUpdate d k v) k = some v := by
  induction d with
  | nil => simp [dictContains] at h
  | cons p rest ih =>
    by_cases hp : p.1 = k
    · simp [dictUpdate, dictGet, hp]
    · simp [dictUpdate, dictGet, hp]
      exact ih (by simpa [dictContains, hp] using h)

/-- Lookup after appending a fresh key. -/
theorem dictGet_append_single (d : List (ExcKey × Handler)) (k : ExcKey) (v : Handler)
    (h : dictContains d k = false) : dictGet (d ++ [(k, v)]) k = some v := by
  induction d with
  | nil => simp [dictGet]
  | cons p rest ih =>
    have hp : ¬ p.1 = k := by
      intro hc
      simp [dictContains, hc] at h
    simp only [List.cons_append, dictGet, if_neg hp]
    exact ih (by simpa [dictContains, hp] using h)

/-- Lookup at the inserted key. -/
theorem dictGet_dictInsert_self (d : List (ExcKey × Handler)) (k : ExcKey) (v : Handler) :
    dictGet (dictInsert d k v) k = some v := by
  unfold dictInsert
  by_cases h : dictContains d k
  · rw [if_pos h]
    exact dictGet_dictUpdate d k v h
  · rw [if_neg h]
    exact dictGet_append_single d k v (by simpa using h)

/-- An in-place update of one key leaves lookups of other keys unchanged. -/
theorem dictGet_dictUpdate_ne (d : List (ExcKey × Handler)) (k k' : ExcKey) (v : Handler)
    (hne : k' ≠ k) : dictGet (dictUpdate d k' v) k = dictGet d k := by
  induction d with
  | nil => rfl
  | cons p rest ih =>
    by_cases hp : p.1 = k'
    · simp [dictUpdate, dictGet, hp, if_neg hne, if_neg (hp ▸ hne), ih]
    · simp only [dictUpdate, dictGet, if_neg hp]
      by_cases hk : p.1 = k
      · simp [hk]
      · simp [if_neg hk, ih]

/-- Appending a pair with a different key leaves a lookup unchanged. -/
theorem dictGet_append_single_ne (d : List (ExcKey × Handler)) (k k' : ExcKey) (v : Handler)
    (hne : k' ≠ k) : dictGet (d ++ [(k', v)]) k = dictGet d k := by
  induction d with
  | nil => simp [dictGet, if_neg hne]
  | cons p rest ih =>
    simp only [List.cons_append, dictGet]
    by_cases hk : p.1 = k
    · simp [hk]
    · simp only [if_neg hk]
      exact ih

/-- Inserting one key leaves lookups of other keys unchanged. -/
theorem dictGet_dictInsert_ne (d : List (ExcKey × Handler)) (k k' : ExcKey) (v : Handler)
    (hne : k' ≠ k) : dictGet (dictInsert d k' v) k = dictGet d k := by
  unfold dictInsert
  by_cases h : dictContains d k'
  · rw [if_pos h]
    exact dictGet_dictUpdate_ne d k k' v hne
  · rw [if_neg h]
    exact dictGet_append_single_ne d k k' v hne

/-- After a successful construction the registry equals the constructor
mapping followed by the two built-in upserts of setup. -/
theorem init_exception_handlers (args : Args) (app : FastAPI)
    (h : FastAPI.init args = .ok app) :
    app.exception_handlers =
      dictInsert (dictInsert args.exception_handlers excKeyHttp Handler.httpExceptionHandler)
        excKeyValidation Handler.requestValidationExceptionHandler := by
  unfold FastAPI.init FastAPI.setup at h
  split at h
  · cases h; rfl
  · split at h
    · cases h; rfl
    · split at h
      · cases h; rfl
      · exact Except.noConfusion h

/-- After a successful construction the router route list is the
constructor routes followed by the schema, docs and redoc routes that
setup registered, in that order. -/
theorem init_router_routes (args : Args) (app : FastAPI)
    (h : FastAPI.init args = .ok app) :
    app.router.routes =
      args.routes ++ openapiRoutesOf args.openapi_url
        ++ docsRoutesOf args.docs_url args.swagger_ui_oauth2_redirect_url
        ++ redocRoutesOf args.redoc_url := by
  unfold FastAPI.init FastAPI.setup at h
  split at h
  · rename_i hu
    cases h
    simp only [initialState] at hu
    simp [FastAPI.postOpenapiSetup, FastAPI.setupDocs, FastAPI.setupRedoc,
      FastAPI.setupMiddleware, FastAPI.setupPre, FastAPI.add_exception_handler,
      openapiRoutesOf, hu, initialState, List.append_assoc]
  · rename_i u hu
    simp only [initialState] at hu
    split at h
    · rename_i he
      cases h
      simp [FastAPI.postOpenapiSetup, FastAPI.setupDocs, FastAPI.setupRedoc,
        FastAPI.setupMiddleware, FastAPI.setupPre, FastAPI.add_exception_handler,
        openapiRoutesOf, hu, he, initialState, List.append_assoc]
    · split at h
      · rename_i he hj
        cases h
        simp [FastAPI.postOpenapiSetup, FastAPI.setupDocs, FastAPI.setupRedoc,
          FastAPI.setupMiddleware, FastAPI.setupPre, FastAPI.add_exception_handler,
          FastAPI.add_route, openapiRoutesOf, hu, he, initialState, List.append_assoc]
      · exact Except.noConfusion h

/-- After a successful construction the application route list equals the
router route list (setup copies it). -/
theorem init_routes_eq (args : Args) (app : FastAPI)
    (h : FastAPI.init args = .ok app) :
    app.routes = app.router.routes := by
  unfold FastAPI.init FastAPI.setup at h
  split at h
  · cases h; rfl
  · split at h
    · cases h; rfl
    · split at h
      · cases h; rfl
      · exact Except.noConfusion h

/-- Construction does not change the configured schema URL. -/
theorem init_openapi_url (args : Args) (app : FastAPI)
    (h : FastAPI.init args = .ok app) :
    app.openapi_url = args.openapi_url := by
  unfold FastAPI.init FastAPI.setup at h
  split at h
  · cases h; rfl
  · split at h
    · cases h; rfl
    · split at h
      · cases h; rfl
      · exact Except.noConfusion h

/-- C1: the claim says the final outer-to-inner middleware order for
constructor middlewares [A, B] and imperative adds C then D is
[ErrorBoundary, D, C, A, B].  The code instead yields
[D, C, B, B, ErrorBoundary, B, A, ErrorBoundary] (front of the
user_middleware list is outermost): setup iterates reversed(user_middleware)
while add_middleware prepends to that same list, duplicating entries, and
the later imperative adds land outside the error boundary. -/
theorem middleware_order_diverges :
    (FastAPI.init { Args.default with middleware := [{ cls := "A" }, { cls := "B" }] }).map
      (fun a => ((a.add_middleware { cls := "C" }).add_middleware { cls := "D" }).user_middleware)
    = .ok [{ cls := "D" }, { cls := "C" }, { cls := "B" }, { cls := "B" },
        serverErrorMiddleware, { cls := "B" }, { cls := "A" }, serverErrorMiddleware]
  ∧ ([{ cls := "D" }, { cls := "C" }, { cls := "B" }, { cls := "B" },
        serverErrorMiddleware, { cls := "B" }, { cls := "A" }, serverErrorMiddleware] :
        List MiddlewareEntry)
    ≠ [serverErrorMiddleware, { cls := "D" }, { cls := "C" }, { cls := "A" }, { cls := "B" }] :=
  ⟨rfl, by decide⟩

/-- C4: add_exception_handler is a last-write-wins upsert: after two calls
with the same key the registry maps the key to the second handler, and the
operation is total (no uniqueness error exists). -/
theorem add_exception_handler_last_write_wins (a : FastAPI) (k : ExcKey) (h1 h2 : Handler) :
    dictGet ((a.add_exception_handler k h1).add_exception_handler k h2).exception_handlers k
      = some h2 :=
  dictGet_dictInsert_self _ _ _

/-- C7: after any successful construction the registry maps the HTTP
exception key to the built-in HTTP handler and the validation failure key
to the built-in validation handler, both registered by setup. -/
theorem builtin_exception_handlers_registered (args : Args) (app : FastAPI)
    (h : FastAPI.init args = .ok app) :
    dictGet app.exception_handlers excKeyHttp = some Handler.httpExceptionHandler
  ∧ dictGet app.exception_handlers excKeyValidation
      = some Handler.requestValidationExceptionHandler := by
  rw [init_exception_handlers args app h]
  constructor
  · rw [dictGet_dictInsert_ne _ _ _ _ (by decide)]
    exact dictGet_dictInsert_self _ _ _
  · exact dictGet_dictInsert_self _ _ _

theorem builtin_exception_handlers_registered_witness :
    dictGet defaultApp.exception_handlers excKeyHttp = some Handler.httpExceptionHandler
  ∧ dictGet defaultApp.exception_handlers excKeyValidation
      = some Handler.requestValidationExceptionHandler :=
  builtin_exception_handlers_registered Args.default defaultApp rfl

/-- C10: even when the constructor mapping supplies custom handlers for the
two built-in keys, setup overwrites them, so after construction both keys
map to the built-in handlers regardless of the constructor argument. -/
theorem builtin_handlers_override_constructor (args : Args) (h1 h2 : Handler) (app : FastAPI)
    (h : FastAPI.init { args with
        exception_handlers := [(excKeyHttp, h1), (excKeyValidation, h2)] } = .ok app) :
    dictGet app.exception_handlers excKeyHttp = some Handler.httpExceptionHandler
  ∧ dictGet app.exception_handlers excKeyValidation
      = some Handler.requestValidationExceptionHandler := by
  rw [init_exception_handlers _ app h]
  constructor
  · rw [dictGet_dictInsert_ne _ _ _ _ (by decide)]
    exact dictGet_dictInsert_self _ _ _
  · exact dictGet_dictInsert_self _ _ _

/-- A concretely constructed application whose constructor mapping supplies
custom handlers for the two built-in keys. -/
def overrideApp : FastAPI :=
  (FastAPI.init { Args.default with
      exception_handlers :=
        [(excKeyHttp, Handler.userHandler 1), (excKeyValidation, Handler.userHandler 2)] }
    ).toOption.getD (initialState Args.default)

theorem builtin_handlers_override_constructor_witness :
    dictGet overrideApp.exception_handlers excKeyHttp = some Handler.httpExceptionHandler
  ∧ dictGet overrideApp.exception_handlers excKeyValidation
      = some Handler.requestValidationExceptionHandler :=
  builtin_handlers_override_constructor Args.default (Handler.userHandler 1)
    (Handler.userHandler 2) overrideApp rfl

/-- C8: setup copies the router routes into the application route list,
and mount appends a Mount entry only to the application route list,
leaving the router route list unchanged. -/
theorem setup_routes_copy_mount_frame (args : Args) (app : FastAPI)
    (h : FastAPI.init args = .ok app) (p : String) (sub : Nat) (nm : Option String) :
    app.routes = app.router.routes
  ∧ (app.mount p sub nm).routes = app.routes ++ [BaseRoute.mount p sub nm]
  ∧ (app.mount p sub nm).router.routes = app.router.routes :=
  ⟨init_routes_eq args app h, rfl, rfl⟩

theorem setup_routes_copy_mount_frame_witness :
    defaultApp.routes = defaultApp.router.routes
  ∧ (defaultApp.mount "/sub" 7 none).routes = defaultApp.routes ++ [BaseRoute.mount "/sub" 7 none]
  ∧ (defaultApp.mount "/sub" 7 none).router.routes = defaultApp.router.routes :=
  setup_routes_copy_mount_frame Args.default defaultApp rfl "/sub" 7 none

/-- C9: add_event_handler raises a configuration error for every event
type other than startup or shutdown, appends to the router startup hook
list for startup, and to the router shutdown hook list for shutdown,
preserving registration order by appending at the end. -/
theorem add_event_handler_spec (a : FastAPI) (ev : String) (f : Nat) :
    (ev ≠ "startup" → ev ≠ "shutdown" →
      a.add_event_handler ev f = .error AppError.invalidEventType)
  ∧ a.add_event_handler "startup" f
      = .ok { a with router := { a.router with on_startup := a.router.on_startup ++ [f] } }
  ∧ a.add_event_handler "shutdown" f
      = .ok { a with router := { a.router with on_shutdown := a.router.on_shutdown ++ [f] } } := by
  refine ⟨?_, ?_, ?_⟩
  · intro h1 h2
    unfold FastAPI.add_event_handler
    rw [if_neg (fun hc => hc.elim h1 h2)]
  · unfold FastAPI.add_event_handler
    rw [if_pos (Or.inl rfl), if_pos rfl]
  · unfold FastAPI.add_event_handler
    rw [if_pos (Or.inr rfl), if_neg (by decide)]

theorem add_event_handler_spec_witness :
    (initialState Args.default).add_event_handler "boot" 0 = .error AppError.invalidEventType
  ∧ (initialState Args.default).add_event_handler "startup" 0
      = .ok { initialState Args.default with
          router := { (initialState Args.default).router with
            on_startup := (initialState Args.default).router.on_startup ++ [0] } }
  ∧ (initialState Args.default).add_event_handler "shutdown" 0
      = .ok { initialState Args.default with
          router := { (initialState Args.default).router with
            on_shutdown := (initialState Args.default).router.on_shutdown ++ [0] } } :=
  ⟨(add_event_handler_spec (initialState Args.default) "boot" 0).1 (by decide) (by decide),
   (add_event_handler_spec (initialState Args.default) "startup" 0).2.1,
   (add_event_handler_spec (initialState Args.default) "shutdown" 0).2.2⟩

/-- The docs routes never include the schema route. -/
theorem any_isOpenapiRoute_docsRoutesOf (d o2 : Option String) :
    (docsRoutesOf d o2).any isOpenapiRoute = false := by
  unfold docsRoutesOf
  split
  · split <;> simp [isOpenapiRoute]
  · rfl

/-- The redoc routes never include the schema route. -/
theorem any_isOpenapiRoute_redocRoutesOf (rd : Option String) :
    (redocRoutesOf rd).any isOpenapiRoute = false := by
  unfold redocRoutesOf
  split <;> simp [isOpenapiRoute]

/-- The schema routes never include the Swagger UI route. -/
theorem any_isSwaggerRoute_openapiRoutesOf (o : Option String) :
    (openapiRoutesOf o).any isSwaggerRoute = false := by
  unfold openapiRoutesOf
  split
  · rfl
  · split <;> simp [isSwaggerRoute]

/-- The redoc routes never include the Swagger UI route. -/
theorem any_isSwaggerRoute_redocRoutesOf (rd : Option String) :
    (redocRoutesOf rd).any isSwaggerRoute = false := by
  unfold redocRoutesOf
  split <;> simp [isSwaggerRoute]

/-- The schema routes never include the ReDoc route. -/
theorem any_isRedocRoute_openapiRoutesOf (o : Option String) :
    (openapiRoutesOf o).any isRedocRoute = false := by
  unfold openapiRoutesOf
  split
  · rfl
  · split <;> simp [isRedocRoute]

/-- The docs routes never include the ReDoc route. -/
theorem any_isRedocRoute_docsRoutesOf (d o2 : Option String) :
    (docsRoutesOf d o2).any isRedocRoute = false := by
  unfold docsRoutesOf
  split
  · split <;> simp [isRedocRoute]
  · rfl

/-- C2: whenever a call of openapi succeeds (schema URL configured), the
returned application state stores the returned document in the cache, and
a second call on that state returns the very same document and the very
same state: a pure cache hit with no recompilation side effects. -/
theorem openapi_cache_pure (a : FastAPI) (d : OpenAPIDoc) (a' : FastAPI)
    (h : a.openapi = .ok (d, a')) :
    a'.openapi_schema = some d ∧ a'.openapi = .ok (d, a') := by
  unfold FastAPI.openapi at h ⊢
  split at h
  · exact Except.noConfusion h
  · rename_i hurl
    split at h
    · rename_i d0 hd0
      cases h
      refine ⟨hd0, ?_⟩
      rw [if_neg hurl]
      simp [hd0]
    · cases h
      refine ⟨rfl, ?_⟩
      rw [if_neg hurl]

/-- The result of the first openapi call on the default application. -/
def firstCall : OpenAPIDoc × FastAPI :=
  (defaultApp.openapi).toOption.getD (get_openapi defaultApp, defaultApp)

theorem openapi_cache_pure_witness :
    firstCall.2.openapi_schema = some firstCall.1
  ∧ firstCall.2.openapi = .ok (firstCall.1, firstCall.2) :=
  openapi_cache_pure defaultApp firstCall.1 firstCall.2 rfl

/-- C3: for an application constructed with no schema URL, openapi fails
with the disabled-feature error, and no schema route is registered at
all. -/
theorem openapi_disabled (args : Args) (app : FastAPI)
    (hurl : args.openapi_url = none)
    (hclean : args.routes = [])
    (h : FastAPI.init args = .ok app) :
    app.openapi = .error AppError.openapiUrlNotSet
  ∧ app.routes.any isOpenapiRoute = false := by
  have hu : app.openapi_url = none := (init_openapi_url args app h).trans hurl
  constructor
  · unfold FastAPI.openapi
    rw [hu, if_pos (show strTruthy none = false from rfl)]
  · rw [init_routes_eq args app h, init_router_routes args app h, hclean, hurl]
    simp [openapiRoutesOf, any_isOpenapiRoute_docsRoutesOf, any_isOpenapiRoute_redocRoutesOf]

/-- A concretely constructed application with the schema URL unset. -/
def disabledApp : FastAPI :=
  (FastAPI.init { Args.default with openapi_url := none }).toOption.getD
    (initialState { Args.default with openapi_url := none })

theorem openapi_disabled_witness :
    disabledApp.openapi = .error AppError.openapiUrlNotSet
  ∧ disabledApp.routes.any isOpenapiRoute = false :=
  openapi_disabled { Args.default with openapi_url := none } disabledApp rfl rfl rfl

/-- C5 counterexample: docs_url set to the empty string is a configured
documentation URL value that is not a non-empty string, yet construction
succeeds without raising any error: the falsy value silently skips the
docs branch of setup. -/
theorem docs_url_empty_no_error :
    exceptOk (FastAPI.init { Args.default with docs_url := some "" }) = true := rfl

/-- C5 amended: construction rejects no string-typed documentation URL.  A
truthy (non-empty) docs_url or redoc_url leads setup to register the
corresponding documentation route; a falsy (empty) one is treated as
disabled: the branch is skipped without error and no such route is
registered. -/
theorem docs_url_validation_amended (args : Args) (app : FastAPI)
    (h : FastAPI.init args = .ok app)
    (hclean : args.routes = []) :
    (strTruthy args.docs_url = true →
      BaseRoute.route (optStr args.docs_url) RouteHandler.swaggerUiHandler false
        ∈ app.router.routes)
  ∧ (strTruthy args.docs_url = false → app.router.routes.any isSwaggerRoute = false)
  ∧ (strTruthy args.redoc_url = true →
      BaseRoute.route (optStr args.redoc_url) RouteHandler.redocHandler false
        ∈ app.router.routes)
  ∧ (strTruthy args.redoc_url = false → app.router.routes.any isRedocRoute = false) := by
  rw [init_router_routes args app h, hclean]
  refine ⟨?_, ?_, ?_, ?_⟩
  · intro hd
    simp [docsRoutesOf, hd, List.mem_append]
  · intro hd
    simp [List.any_append, docsRoutesOf, hd, any_isSwaggerRoute_openapiRoutesOf,
      any_isSwaggerRoute_redocRoutesOf]
  · intro hr
    simp [redocRoutesOf, hr, List.mem_append]
  · intro hr
    simp [List.any_append, redocRoutesOf, hr, any_isRedocRoute_openapiRoutesOf,
      any_isRedocRoute_docsRoutesOf]

theorem docs_url_validation_amended_witness :
    (strTruthy Args.default.docs_url = true →
      BaseRoute.route (optStr Args.default.docs_url) RouteHandler.swaggerUiHandler false
        ∈ defaultApp.router.routes)
  ∧ (strTruthy Args.default.docs_url = false →
      defaultApp.router.routes.any isSwaggerRoute = false)
  ∧ (strTruthy Args.default.redoc_url = true →
      BaseRoute.route (optStr Args.default.redoc_url) RouteHandler.redocHandler false
        ∈ defaultApp.router.routes)
  ∧ (strTruthy Args.default.redoc_url = false →
      defaultApp.router.routes.any isRedocRoute = false) :=
  docs_url_validation_amended Args.default defaultApp rfl rfl

/-- C6 counterexample: the empty string is a configured schema URL that
does not end in .json, yet construction succeeds without raising: the
falsy value skips the whole OpenAPI branch, assert included. -/
theorem openapi_url_empty_no_error :
    strEndsWith "" ".json" = false
  ∧ exceptOk (FastAPI.init { Args.default with openapi_url := some "" }) = true :=
  ⟨rfl, rfl⟩

/-- C6 amended: for a configured non-empty schema URL that does not end in
.json, construction raises the configuration error synchronously (the
constructor returns the error, never an object); for a schema URL ending
in .json, construction succeeds and setup registers a route at that path
with include_in_schema false; a configured empty schema URL is treated as
disabled and raises nothing. -/
theorem openapi_url_validation_amended (args : Args) (u : String)
    (hu : args.openapi_url = some u) :
    (u ≠ "" → strEndsWith u ".json" = false →
      FastAPI.init args = .error AppError.openapiUrlMustEndWithJson)
  ∧ (strEndsWith u ".json" = true →
      exceptOk (FastAPI.init args) = true
      ∧ BaseRoute.route u RouteHandler.openapiHandler false ∈ routesOfInit args) := by
  have hu' : (initialState args).openapi_url = some u := hu
  constructor
  · intro hne hj
    unfold FastAPI.init FastAPI.setup
    simp only [hu']
    rw [if_neg hne, if_neg (by simp [hj])]
  · intro hj
    have hne : u ≠ "" := by
      intro he
      rw [he] at hj
      exact absurd hj (by decide)
    have hok : FastAPI.init args
        = .ok (((initialState args).setupPre.add_route u
            RouteHandler.openapiHandler false).postOpenapiSetup) := by
      unfold FastAPI.init FastAPI.setup
      simp only [hu']
      rw [if_neg hne, if_pos hj]
    refine ⟨by rw [hok]; rfl, ?_⟩
    have hroutes := init_router_routes args _ hok
    simp only [routesOfInit, hok]
    rw [hroutes, hu]
    simp [openapiRoutesOf, if_neg hne, List.mem_append]

theorem openapi_url_validation_amended_witness :
    (("/openapi.json" : String) ≠ "" → strEndsWith "/openapi.json" ".json" = false →
      FastAPI.init Args.default = .error AppError.openapiUrlMustEndWithJson)
  ∧ (strEndsWith "/openapi.json" ".json" = true →
      exceptOk (FastAPI.init Args.default) = true
      ∧ BaseRoute.route "/openapi.json" RouteHandler.openapiHandler false
          ∈ routesOfInit Args.default) :=
  openapi_url_validation_amended Args.default "/openapi.json" rfl
